import Mathlib

/-!
Verification development for the ORTWEB1 browser training app.

Shallow embedding of the two source files:
  * src/data.ts      — class ImageData: sample/label loading and batching
  * src/App.tsx      — logging helper, epoch runners, training supervisor,
                       prediction utilities

Modelling conventions:
  * JavaScript numbers are modelled as exact rationals (the code only
    compares, adds and divides scores/counters; no float rounding is
    relevant to the claims, except NaN/Infinity which are modelled
    explicitly by JSNum).
  * JS BigInt values (the int64 label tensors use BigInt64Array) are
    modelled as integers wrapped in a distinct JSVal constructor, so JS
    strict equality between a Number and a BigInt is representable.
  * async/await and fetch: the code is single-threaded cooperative; each
    awaited fetch is abstracted to a function argument supplying its
    result, and awaited engine calls to a function from batches to
    results.  Date.now() readings are passed as explicit arguments.
  * Exceptions are modelled with Except.
-/

namespace ORTWeb

/-- A JavaScript value as far as the code under verification inspects one:
a Number (exact rational model), a BigInt, or undefined (out-of-range
array read). -/
inductive JSVal where
  | num : ℚ → JSVal
  | bigint : ℤ → JSVal
  | undef : JSVal
deriving DecidableEq

/-- JS strict equality between two values: values of different types are
never strictly equal; same-typed values compare by value
(undefined === undefined is true). -/
def jsStrictEq : JSVal → JSVal → Bool
  | JSVal.num a, JSVal.num b => a == b
  | JSVal.bigint a, JSVal.bigint b => a == b
  | JSVal.undef, JSVal.undef => true
  | _, _ => false

/-- A JS Number result that may be NaN or Infinity (division results). -/
inductive JSNum where
  | nan : JSNum
  | inf : JSNum
  | val : ℚ → JSNum
deriving DecidableEq

/-- JS division of two nonnegative machine numbers (here Nat counters):
0/0 is NaN, x/0 with x ≠ 0 is Infinity, otherwise the exact quotient.
Division in JS never throws. -/
def jsDivNat (a b : ℕ) : JSNum :=
  if b = 0 then (if a = 0 then JSNum.nan else JSNum.inf) else JSNum.val ((a : ℚ) / b)

instance {ε α : Type} [DecidableEq ε] [DecidableEq α] : DecidableEq (Except ε α) := fun a b =>
  match a, b with
  | Except.ok x, Except.ok y =>
      if h : x = y then isTrue (by rw [h])
      else isFalse (fun hc => h (by cases hc; rfl))
  | Except.error x, Except.error y =>
      if h : x = y then isTrue (by rw [h])
      else isFalse (fun hc => h (by cases hc; rfl))
  | Except.ok _, Except.error _ => isFalse (fun hc => by cases hc)
  | Except.error _, Except.ok _ => isFalse (fun hc => by cases hc)

/-- The two ort.Tensor element types the code constructs. -/
inductive DType where
  | float32
  | int64
deriving DecidableEq

/-- Model of ort.Tensor: element type tag, flat data array, dims. A
float32 tensor holds JSVal.num entries; an int64 tensor holds
JSVal.bigint entries. -/
structure Tensor where
  dtype : DType
  data : List JSVal
  dims : List ℕ
deriving DecidableEq

instance : Inhabited Tensor := ⟨⟨DType.float32, [], []⟩⟩

/-- Reading a JSVal as a Number: this models the `as Float32Array` cast in
getPredictions; float32 tensors only hold num entries, so the bigint and
undef branches are never reached on the tensors the code builds. -/
def JSVal.asNum : JSVal → ℚ
  | JSVal.num q => q
  | JSVal.bigint n => (n : ℚ)
  | JSVal.undef => 0

/-- The error message thrown by indexOfMax on an empty array
(src/App.tsx line 189). -/
def indexOfMaxErrMsg : String :=
  "index of max (used in test accuracy function) expects a non-empty array. Something went wrong."

/-- Body of the scan loop of indexOfMax (src/App.tsx lines 192-196):
replace the running maxIndex by i exactly when arr[i] > arr[maxIndex]. -/
def indexOfMaxStep (arr : List ℚ) (maxIndex i : ℕ) : ℕ :=
  if arr.getD i 0 > arr.getD maxIndex 0 then i else maxIndex

/-- The loop of indexOfMax: maxIndex starts at 0 and i scans 1,…,len-1
(src/App.tsx lines 191-196). -/
def indexOfMaxCore (arr : List ℚ) : ℕ :=
  (List.range' 1 (arr.length - 1)).foldl (indexOfMaxStep arr) 0

/-- indexOfMax (src/App.tsx lines 187-198): throws on an empty array,
otherwise returns the scan result. -/
def indexOfMax (arr : List ℚ) : Except String ℕ :=
  if arr.length = 0 then Except.error indexOfMaxErrMsg
  else Except.ok (indexOfMaxCore arr)

/-- Loop invariant of the indexOfMax scan: after consuming indices 1,…,k
the running maxIndex is at most k, its entry dominates all entries up to
index k, and strictly dominates all entries left of itself (first-maximum
tie-break). -/
lemma indexOfMax_loop_inv (arr : List ℚ) (k : ℕ) :
    (List.range' 1 k).foldl (indexOfMaxStep arr) 0 ≤ k ∧
    (∀ j, j ≤ k → arr.getD j 0 ≤ arr.getD ((List.range' 1 k).foldl (indexOfMaxStep arr) 0) 0) ∧
    (∀ j, j < (List.range' 1 k).foldl (indexOfMaxStep arr) 0 →
      arr.getD j 0 < arr.getD ((List.range' 1 k).foldl (indexOfMaxStep arr) 0) 0) := by
  induction k with
  | zero =>
    refine ⟨Nat.le_refl 0, ?_, ?_⟩
    · intro j hj
      have hj0 : j = 0 := Nat.le_zero.mp hj
      simp [List.range', hj0]
    · intro j hj
      simp [List.range'] at hj
  | succ k ih =>
    obtain ⟨ih1, ih2, ih3⟩ := ih
    have hconcat : List.range' 1 (k + 1) = List.range' 1 k ++ [1 + k] :=
      List.range'_1_concat 1 k
    rw [hconcat, List.foldl_append]
    set m := (List.range' 1 k).foldl (indexOfMaxStep arr) 0 with hm
    simp only [List.foldl_cons, List.foldl_nil]
    unfold indexOfMaxStep
    by_cases hcmp : arr.getD (1 + k) 0 > arr.getD m 0
    · rw [if_pos hcmp]
      refine ⟨by omega, ?_, ?_⟩
      · intro j hj
        rcases Nat.lt_or_ge j (k + 1) with hjk | hjk
        · have hjle : j ≤ k := by omega
          have := ih2 j hjle
          have h1k : (1 + k) = k + 1 := by omega
          calc arr.getD j 0 ≤ arr.getD m 0 := this
            _ ≤ arr.getD (1 + k) 0 := le_of_lt hcmp
        · have : j = 1 + k := by omega
          rw [this]
      · intro j hj
        have hjle : j ≤ k := by omega
        have := ih2 j hjle
        calc arr.getD j 0 ≤ arr.getD m 0 := this
          _ < arr.getD (1 + k) 0 := hcmp
    · rw [if_neg hcmp]
      refine ⟨by omega, ?_, ih3⟩
      intro j hj
      rcases Nat.lt_or_ge j (k + 1) with hjk | hjk
      · exact ih2 j (by omega)
      · have hje : j = 1 + k := by omega
        rw [hje]
        exact le_of_not_lt hcmp

/-- Specification of the indexOfMax scan on a nonempty array: the returned
index is in range, its entry is a maximum, and every entry strictly left
of it is strictly smaller. -/
lemma indexOfMaxCore_spec (arr : List ℚ) (h : arr ≠ []) :
    indexOfMaxCore arr < arr.length ∧
    (∀ j, j < arr.length → arr.getD j 0 ≤ arr.getD (indexOfMaxCore arr) 0) ∧
    (∀ j, j < indexOfMaxCore arr → arr.getD j 0 < arr.getD (indexOfMaxCore arr) 0) := by
  have hlen : arr.length ≠ 0 := by
    intro hc
    exact h (List.length_eq_zero.mp hc)
  obtain ⟨inv1, inv2, inv3⟩ := indexOfMax_loop_inv arr (arr.length - 1)
  unfold indexOfMaxCore
  refine ⟨by omega, ?_, inv3⟩
  intro j hj
  exact inv2 j (by omega)

/-! ## src/data.ts — class ImageData -/

/-- A yielded batch: the pair the generator in ImageData.batches yields
(fields data and labels, src/data.ts line 83). -/
structure Batch where
  data : Tensor
  labels : Tensor
deriving DecidableEq

instance : Inhabited Batch := ⟨⟨default, default⟩⟩

/-- The instance fields of class ImageData (src/data.ts lines 4-7);
batchSize defaults to 32, maxNumTrainSamples to 293, maxNumTestSamples
to 73 and dataFolderPath is set by the constructor. -/
structure ImageDataState where
  batchSize : ℕ
  maxNumTrainSamples : ℕ
  maxNumTestSamples : ℕ
  dataFolderPath : String
deriving DecidableEq

/-- ImageData.processImage (src/data.ts lines 70-75): wraps the fetched
bytes into a float32 tensor of dims [1, imageData.length]. -/
def processImage (imageData : List ℕ) : Tensor :=
  { dtype := DType.float32
    data := imageData.map (fun b => JSVal.num (b : ℚ))
    dims := [1, imageData.length] }

/-- ImageData.loadFilesInFolder (src/data.ts lines 91-97): the manifest
body split on newlines with falsy (empty) lines filtered out. The fetch
is abstracted to its resulting line list. -/
def loadFilesInFolder (manifestLines : List String) : List String :=
  manifestLines.filter (fun file => !file.isEmpty)

/-- ImageData.loadData (src/data.ts lines 29-42): for each of the first
min(files.length, maxSamples) manifest entries, fetch the image at
dataFolderPath/folderName/file and convert it via processImage. The
awaited byte fetch (loadImage) is abstracted to the function fetchImage. -/
def loadData (fetchImage : String → List ℕ) (dataFolderPath folderName : String)
    (files : List String) (maxSamples : ℕ) : List Tensor :=
  (files.take maxSamples).map (fun file =>
    processImage (fetchImage (dataFolderPath ++ "/" ++ folderName ++ "/" ++ file)))

/-- ImageData.readLabelsFile (src/data.ts lines 51-58): each line of the
label file is trimmed and run through parseInt; lines that parse to NaN
are filtered out, the first maxSamples surviving labels are wrapped into
int64 tensors of dims [1] holding a BigInt. A line is modelled by its
parseInt result (none = NaN). -/
def readLabelsFile (rawLines : List (Option ℤ)) (maxSamples : ℕ) : List Tensor :=
  let labels := rawLines.filterMap id
  (labels.take maxSamples).map (fun label =>
    { dtype := DType.int64, data := [JSVal.bigint label], dims := [1] })

/-- The generator ImageData.batches (src/data.ts lines 77-85): it computes
numBatches = floor(data.length / batchSize) and for each i slices the
windows data.slice(i*b, i*b+b) and labels.slice(i*b, i*b+b), but yields
only the FIRST element of each slice (batchData[0], batchLabels[0],
line 83). List.headI is that element (the slices are nonempty for every
i < numBatches). -/
def batches (batchSize : ℕ) (data labels : List Tensor) : List Batch :=
  (List.range (data.length / batchSize)).map (fun i =>
    let startIndex := i * batchSize
    let batchData := (data.drop startIndex).take batchSize
    let batchLabels := (labels.drop startIndex).take batchSize
    { data := batchData.headI, labels := batchLabels.headI })

/-- Running the batches generator against the object state: the generator
body only reads this.batchSize (never writes any field) and only calls
Array.prototype.slice, which copies and does not mutate; so the embedding
returns the batch list together with the data array, label array and
object state as they stand after the run — all unchanged. -/
def batchesRun (s : ImageDataState) (data labels : List Tensor) :
    List Batch × List Tensor × List Tensor × ImageDataState :=
  (batches s.batchSize data labels, data, labels, s)

/-- ImageData.trainingBatches (src/data.ts lines 17-21): loads the train
data and labels, then delegates to batches. Each call re-runs the loads
and a fresh generator. -/
def trainingBatches (s : ImageDataState) (fetchImage : String → List ℕ)
    (manifestLines : List String) (rawLabelLines : List (Option ℤ)) : List Batch :=
  let trainingData := loadData fetchImage s.dataFolderPath "train"
      (loadFilesInFolder manifestLines) s.maxNumTrainSamples
  let trainingLabels := readLabelsFile rawLabelLines s.maxNumTrainSamples
  batches s.batchSize trainingData trainingLabels

/-! ## src/App.tsx — prediction utilities -/

/-- getPredictions (src/App.tsx lines 176-185): destructure
[batchSize, numClasses] from results.dims, and for each row i take the
slice of numClasses scores and run indexOfMax on it (the throw from
indexOfMax on an empty row propagates, aborting at the first failing
row, which mapM mirrors). -/
def getPredictions (results : Tensor) : Except String (List ℕ) :=
  let batchSize := results.dims.getD 0 0
  let numClasses := results.dims.getD 1 0
  (List.range batchSize).mapM (fun i =>
    let probabilities := ((results.data.drop (i * numClasses)).take numClasses).map JSVal.asNum
    indexOfMax probabilities)

/-- countCorrectPredictions (src/App.tsx lines 165-174): count the i with
predictions[i] === labels.data[i]. predictions[i] is a JS Number; for an
int64 label tensor labels.data[i] is a BigInt, and strict equality
compares the types first. Out-of-range reads of labels.data give
undefined. -/
def countCorrectPredictions (output : Tensor) (labels : Tensor) : Except String ℕ := do
  let predictions ← getPredictions output
  return (List.range predictions.length).foldl (fun result i =>
    if jsStrictEq (JSVal.num ((predictions.getD i 0 : ℕ) : ℚ)) (labels.data.getD i JSVal.undef)
    then result + 1 else result) 0

/-! ## src/App.tsx — evaluation epoch runner -/

/-- What one awaited session.runEvalStep call returns, as the code reads
it: parseFloat(results[lossNodeName].data) and results['output']
(src/App.tsx lines 103-107). -/
structure EvalStepResult where
  loss : ℚ
  output : Tensor

/-- The accumulators of runTestingEpoch (src/App.tsx lines 90-94). -/
structure TestEpochStats where
  batchNum : ℕ
  numCorrect : ℕ
  testPicsSoFar : ℕ
  accumulatedLoss : ℚ
deriving DecidableEq

/-- The loop and final accuracy computation of runTestingEpoch
(src/App.tsx lines 89-115): fold the eval step over the batch list,
accumulating loss, picture count (batch.data.dims[0]) and the correct
count; afterwards avgAcc = numCorrect / testPicsSoFar with JS division
semantics (0/0 = NaN, never a thrown error). The engine is abstracted to
a function from the batch to its eval-step result; the per-batch logging
does not affect the returned value and is modelled separately. -/
def runTestingEpoch (engine : Batch → EvalStepResult) (batchList : List Batch) :
    Except String (TestEpochStats × JSNum) := do
  let final ← batchList.foldlM (fun (st : TestEpochStats) batch => do
      let results := engine batch
      let loss := results.loss
      let correct ← countCorrectPredictions results.output batch.labels
      return { batchNum := st.batchNum + 1
               accumulatedLoss := st.accumulatedLoss + loss
               testPicsSoFar := st.testPicsSoFar + batch.data.dims.getD 0 0
               numCorrect := st.numCorrect + correct })
    { batchNum := 0, numCorrect := 0, testPicsSoFar := 0, accumulatedLoss := 0 }
  return (final, jsDivNat final.numCorrect final.testPicsSoFar)

/-! ## src/App.tsx — throttled logging -/

/-- The mutable state logMessage touches (src/App.tsx lines 15-16, 26,
28): the module-level messagesQueue and lastLogTime, and the React
statusMessage and messages states. -/
structure LogState where
  messagesQueue : List String
  lastLogTime : ℕ
  statusMessage : String
  messages : List String
deriving DecidableEq

/-- logMessage (src/App.tsx lines 36-47): push the message; if
now - lastLogTime > logIntervalMs, publish the message as the status,
and only when live logging is enabled drain the queue into the displayed
messages and clear it; then sleep waitAfterLoggingMs and set lastLogTime
to the post-sleep clock. Time is modelled by the entry reading `now`;
the sleep is the only modelled time passage, so the post-sleep reading is
now + waitAfterLoggingMs. The comparison is on JS (signed) numbers, hence
the cast to ℤ. -/
def logMessage (enableLiveLogging : Bool) (logIntervalMs waitAfterLoggingMs : ℕ)
    (now : ℕ) (message : String) (s : LogState) : LogState :=
  let s1 := { s with messagesQueue := s.messagesQueue ++ [message] }
  if (now : ℤ) - (s1.lastLogTime : ℤ) > (logIntervalMs : ℤ) then
    let s2 := { s1 with statusMessage := message }
    let s3 := if enableLiveLogging then
        { s2 with messages := s2.messages ++ s2.messagesQueue, messagesQueue := [] }
      else s2
    { s3 with lastLogTime := now + waitAfterLoggingMs }
  else s1

/-! ## src/App.tsx — training supervisor (train, loadTrainingSession) -/

/-- The React states of the App component that train and
loadTrainingSession write (src/App.tsx lines 22-28). -/
structure AppState where
  statusMessage : String
  errorMessage : String
  isTraining : Bool
  trainingLosses : List ℚ
  testAccuracies : List JSNum
  messages : List String
deriving DecidableEq

instance : Inhabited AppState := ⟨⟨"", "", false, [], [], []⟩⟩

/-- clearOutputs (src/App.tsx lines 49-56): resets the plotted series, the
displayed log, the status and error messages (the module-level
messagesQueue reset lives in LogState and is modelled there). -/
def clearOutputs (s : AppState) : AppState :=
  { s with trainingLosses := [], testAccuracies := [], messages := []
           statusMessage := "", errorMessage := "" }

/-- loadTrainingSession (src/App.tsx lines 137-162): set the status, then
await ort.TrainingSession.create; on success set the loaded status and
return the session; on failure set errorMessage to a human-readable
description and rethrow the original error (the thrown error carries the
state as it stands at the throw). The awaited create call is abstracted
to its result. -/
def loadTrainingSession {σ : Type} (createResult : Except String σ) (s : AppState) :
    Except (String × AppState) (σ × AppState) :=
  let s1 := { s with statusMessage := "Attempting to load training session..." }
  match createResult with
  | Except.ok session => Except.ok (session, { s1 with statusMessage := "Training session loaded" })
  | Except.error err =>
      Except.error (err, { s1 with errorMessage := "Error loading the training session: " ++ err })

/-- The phase of one epoch pass. -/
inductive Phase where
  | training
  | evaluating
deriving DecidableEq

/-- The epoch loop of train (src/App.tsx lines 128-131): for each epoch
run one training pass then one testing pass, adding the training pass's
iterations/second into itersPerSecCumulative and overwriting testAcc with
the testing pass's accuracy. The two runner calls are abstracted to
result functions indexed by the epoch; the trace records the passes in
execution order. -/
def epochLoop (numEpochs : ℕ) (epochIts epochAcc : ℕ → ℚ) :
    List (Phase × ℕ) × ℚ × ℚ :=
  (List.range numEpochs).foldl
    (fun p e =>
      (p.1 ++ [(Phase.training, e), (Phase.evaluating, e)], p.2.1 + epochIts e, epochAcc e))
    ([], 0, 0)

/-- The final status line of train (src/App.tsx line 133). The toFixed(2)
number formatting is abstracted to the exact rational rendering; the
three numeric payloads (accuracy percentage, total seconds, average
iterations per second) are what the claims are about. -/
def summaryText (accuracyPct totalSeconds avgIts : ℚ) : String :=
  "Training completed. Final test set accuracy: " ++ toString accuracyPct ++
  "% | Total training time: " ++ toString totalSeconds ++
  " seconds | Average iterations / second: " ++ toString avgIts

/-- train (src/App.tsx lines 117-135): clear outputs, set isTraining,
load the session (an uncaught failure propagates — there is no
try/catch in train, so setIsTraining(false) never runs on that path),
then run the epoch loop, set the final summary status and reset
isTraining. The per-epoch runner results are abstracted to the functions
epochIts/epochAcc and the wall time to trainingTimeMs; the source's
numEpochs is the constant 5, generalized here to a parameter (nonzero in
the source). -/
def train {σ : Type} (createResult : Except String σ) (numEpochs : ℕ)
    (epochIts epochAcc : ℕ → ℚ) (trainingTimeMs : ℚ) (s0 : AppState) :
    Except (String × AppState) (AppState × List (Phase × ℕ)) :=
  let s1 := clearOutputs s0
  let s2 := { s1 with isTraining := true }
  match loadTrainingSession createResult s2 with
  | Except.error e => Except.error e
  | Except.ok (_, s3) =>
      let s4 := { s3 with statusMessage := "Training started" }
      let r := epochLoop numEpochs epochIts epochAcc
      let s5 := { s4 with
        statusMessage := summaryText (100 * r.2.2) (trainingTimeMs / 1000) (r.2.1 / numEpochs)
        isTraining := false }
      Except.ok (s5, r.1)

/-- The start button (src/App.tsx line 237) is disabled exactly when
isTraining holds, so no further start request can be initiated while it
is set. -/
def startButtonDisabled (s : AppState) : Bool :=
  s.isTraining

/-! ## Helper lemmas -/

/-- The batch stream has exactly floor(data.length / batchSize) elements. -/
lemma batches_length (b : ℕ) (data labels : List Tensor) :
    (batches b data labels).length = data.length / b := by
  simp [batches]

/-- The i-th yielded batch is built from the slice starting at offset
i * batchSize of the original data and label arrays. -/
lemma batches_getD (b : ℕ) (data labels : List Tensor) (i : ℕ)
    (hi : i < data.length / b) :
    (batches b data labels).getD i default =
      { data := ((data.drop (i * b)).take b).headI
        labels := ((labels.drop (i * b)).take b).headI } := by
  have hi' : i < (List.range (data.length / b)).length := by simpa using hi
  simp [batches, List.getD_eq_getElem?_getD, List.getElem?_map,
    List.getElem?_eq_getElem hi']

/-- One unfolding step of the epoch loop. -/
lemma epochLoop_succ (n : ℕ) (f g : ℕ → ℚ) :
    epochLoop (n + 1) f g =
      ((epochLoop n f g).1 ++ [(Phase.training, n), (Phase.evaluating, n)],
        (epochLoop n f g).2.1 + f n, g n) := by
  unfold epochLoop
  rw [List.range_succ, List.foldl_append]
  rfl

/-- The trace of the epoch loop: for each epoch in order, one training
pass followed by one evaluating pass. -/
lemma epochLoop_trace (n : ℕ) (f g : ℕ → ℚ) :
    (epochLoop n f g).1 =
      (List.range n).flatMap (fun e => [(Phase.training, e), (Phase.evaluating, e)]) := by
  induction n with
  | zero => rfl
  | succ n ih =>
    rw [epochLoop_succ]
    show (epochLoop n f g).1 ++ [(Phase.training, n), (Phase.evaluating, n)] = _
    rw [ih, List.range_succ, List.flatMap_append]
    rfl

/-- The cumulative iterations/second accumulator is the sum of the
per-epoch training results. -/
lemma epochLoop_cum (n : ℕ) (f g : ℕ → ℚ) :
    (epochLoop n f g).2.1 = ((List.range n).map f).sum := by
  induction n with
  | zero => rfl
  | succ n ih =>
    rw [epochLoop_succ]
    show (epochLoop n f g).2.1 + f n = _
    rw [ih, List.range_succ]
    simp

/-- The final testAcc is the last evaluation pass's accuracy. -/
lemma epochLoop_acc (n : ℕ) (f g : ℕ → ℚ) (hn : 0 < n) :
    (epochLoop n f g).2.2 = g (n - 1) := by
  cases n with
  | zero => exact absurd hn (by omega)
  | succ n =>
    rw [epochLoop_succ]
    show g n = g (n + 1 - 1)
    simp

/-- Evaluating train on a successful session load: the whole success path
of train as one equation. -/
lemma train_ok_eq {σ : Type} (sess : σ) (n : ℕ) (f g : ℕ → ℚ) (tMs : ℚ)
    (s0 : AppState) :
    train (Except.ok sess) n f g tMs s0 =
      Except.ok
        ({ statusMessage := summaryText (100 * (epochLoop n f g).2.2) (tMs / 1000)
             ((epochLoop n f g).2.1 / n)
           errorMessage := "", isTraining := false, trainingLosses := []
           testAccuracies := [], messages := [] },
         (epochLoop n f g).1) := rfl

/-! ## Concrete fixtures for counterexamples and witnesses -/

/-- A float32 sample tensor of shape [1, 1] holding the value j, as
processImage builds from a one-byte image. -/
def sampleTensor (j : ℕ) : Tensor :=
  { dtype := DType.float32, data := [JSVal.num (j : ℚ)], dims := [1, 1] }

/-- An int64 label tensor of shape [1] holding the BigInt j, as
readLabelsFile builds. -/
def labelTensor (j : ℕ) : Tensor :=
  { dtype := DType.int64, data := [JSVal.bigint (j : ℤ)], dims := [1] }

/-- Thirty-two loaded sample tensors. -/
def data32 : List Tensor := (List.range 32).map sampleTensor

/-- Thirty-two loaded label tensors. -/
def labels32 : List Tensor := (List.range 32).map labelTensor

/-- A one-sample eval output with class scores [0.1, 0.9]: the predicted
class is 1. -/
def evalOutput1 : Tensor :=
  { dtype := DType.float32, data := [JSVal.num (mkRat 1 10), JSVal.num (mkRat 9 10)]
    dims := [1, 2] }

/-! ## Claim theorems -/

/-- C1 (evaluation at the failing input): with 32 loaded samples, 32
labels and batchSize 32, the stream yields exactly floor(32/32) = 1
batch, but that batch's data is just the first sample tensor of the
32-sample slice — one sample of dims [1, 1], so its dims[0] is 1 and not
32 — and its labels is just the first label tensor. The code slices a
32-element window and then yields only element [0] of it, instead of the
stacked 32 aligned (input, label) pairs the claim describes. -/
theorem batches_first_sample_only :
    (batches 32 data32 labels32).length = 1 ∧
    (batches 32 data32 labels32).getD 0 default =
      { data := sampleTensor 0, labels := labelTensor 0 } ∧
    ((batches 32 data32 labels32).getD 0 default).data.dims.getD 0 0 = 1 ∧
    ¬(((batches 32 data32 labels32).getD 0 default).data.dims.getD 0 0 = 32) := by
  refine ⟨rfl, rfl, rfl, by decide⟩

/-- C2 (evaluation at the failing input): a one-sample evaluation batch
whose output scores are [0.1, 0.9] predicts class 1, and the int64 label
tensor holds the BigInt 1, so the predicted-max index equals the true
label for every sample in the batch; yet countCorrectPredictions returns
0, not the batch size 1, because predictions[i] === labels.data[i]
compares a JS Number against a BigInt and strict equality between
different types is always false. -/
theorem countCorrect_number_bigint_mismatch :
    getPredictions evalOutput1 = Except.ok [1] ∧
    (labelTensor 1).data = [JSVal.bigint 1] ∧
    countCorrectPredictions evalOutput1 (labelTensor 1) = Except.ok 0 := by
  refine ⟨by decide, rfl, by decide⟩

/-- C3 counterexample: a manifest of 2 files and a label file with 1
well-formed line, under cap 10, load 2 samples but only 1 label — not
the min(2, 1, 10) = 1 aligned pairs with equal lengths the claim states:
the two loads are independent and the sample count ignores the label
count. -/
theorem load_lengths_mismatch :
    (loadData (fun _ => [0]) "root" "train" ["a", "b"] 10).length = 2 ∧
    (readLabelsFile [some 7] 10).length = 1 ∧
    ¬((loadData (fun _ => [0]) "root" "train" ["a", "b"] 10).length =
      (readLabelsFile [some 7] 10).length) := by
  refine ⟨rfl, rfl, by decide⟩

/-- C3 (amended): loading produces the first min(fileCount, maxSamples)
samples and, independently, the first min(labelCount, maxSamples)
well-formed labels; each list is capped at maxSamples; the two lengths
agree when fileCount equals the well-formed label count; and both lists
are index-aligned with their own inputs (sample i comes from manifest
entry i, label i from the i-th well-formed line). -/
theorem load_lengths_aligned (fetchImage : String → List ℕ) (root folder : String)
    (files : List String) (rawLines : List (Option ℤ)) (maxSamples : ℕ) :
    (loadData fetchImage root folder files maxSamples).length = min files.length maxSamples ∧
    (readLabelsFile rawLines maxSamples).length =
      min (rawLines.filterMap id).length maxSamples ∧
    (loadData fetchImage root folder files maxSamples).length ≤ maxSamples ∧
    (readLabelsFile rawLines maxSamples).length ≤ maxSamples ∧
    (files.length = (rawLines.filterMap id).length →
      (loadData fetchImage root folder files maxSamples).length =
        (readLabelsFile rawLines maxSamples).length) ∧
    (∀ i, i < min files.length maxSamples →
      (loadData fetchImage root folder files maxSamples).getD i default =
        processImage (fetchImage (root ++ "/" ++ folder ++ "/" ++ files.getD i ""))) ∧
    (∀ i, i < min (rawLines.filterMap id).length maxSamples →
      (readLabelsFile rawLines maxSamples).getD i default =
        { dtype := DType.int64, data := [JSVal.bigint ((rawLines.filterMap id).getD i 0)]
          dims := [1] }) := by
  have hl1 : (loadData fetchImage root folder files maxSamples).length =
      min files.length maxSamples := by
    simp [loadData, Nat.min_comm]
  have hl2 : (readLabelsFile rawLines maxSamples).length =
      min (rawLines.filterMap id).length maxSamples := by
    simp [readLabelsFile, Nat.min_comm]
  refine ⟨hl1, hl2, ?_, ?_, ?_, ?_, ?_⟩
  · rw [hl1]; exact Nat.min_le_right _ _
  · rw [hl2]; exact Nat.min_le_right _ _
  · intro h; rw [hl1, hl2, h]
  · intro i hi
    have hif : i < files.length := lt_of_lt_of_le hi (Nat.min_le_left _ _)
    have him : i < maxSamples := lt_of_lt_of_le hi (Nat.min_le_right _ _)
    simp [loadData, List.getD_eq_getElem?_getD, List.getElem?_map,
      List.getElem?_take_of_lt him, List.getElem?_eq_getElem hif]
  · intro i hi
    have hif : i < (rawLines.filterMap id).length :=
      lt_of_lt_of_le hi (Nat.min_le_left _ _)
    have him : i < maxSamples := lt_of_lt_of_le hi (Nat.min_le_right _ _)
    simp [readLabelsFile, List.getD_eq_getElem?_getD, List.getElem?_map,
      List.getElem?_take_of_lt him, List.getElem?_eq_getElem hif]

/-- C4 counterexample: with live logging disabled, a post that triggers a
flush (now - lastFlushTime > interval) publishes the status but does NOT
discard the buffered message: the queue still holds it after the flush,
contradicting the claim that buffered messages are discarded at flush
time so the buffer cannot grow without bound. -/
theorem logMessage_no_discard :
    (logMessage false 1000 500 2000 "m"
      { messagesQueue := [], lastLogTime := 0, statusMessage := "", messages := [] }).statusMessage = "m" ∧
    (logMessage false 1000 500 2000 "m"
      { messagesQueue := [], lastLogTime := 0, statusMessage := "", messages := [] }).messagesQueue = ["m"] ∧
    ¬((logMessage false 1000 500 2000 "m"
      { messagesQueue := [], lastLogTime := 0, statusMessage := "", messages := [] }).messagesQueue = []) := by
  refine ⟨rfl, rfl, by decide⟩

/-- C4 (amended): on post the message is appended to the buffer; if
now - lastFlushTime > logIntervalMs the most recent message is published
as the status, the backlog is drained into the displayed log and the
buffer cleared only when live logging is enabled, and lastFlushTime is
updated to the post-pause time; when live logging is disabled only the
status line is surfaced and the buffered messages are NOT discarded at
flush time — the queue keeps every posted message, so it grows without
bound while live logging is off. -/
theorem logMessage_behavior (live : Bool) (interval wait now : ℕ) (msg : String)
    (s : LogState) :
    logMessage live interval wait now msg s =
      (if (now : ℤ) - (s.lastLogTime : ℤ) > (interval : ℤ) then
        if live then
          { s with statusMessage := msg
                   messages := s.messages ++ (s.messagesQueue ++ [msg])
                   messagesQueue := []
                   lastLogTime := now + wait }
        else
          { s with statusMessage := msg
                   messagesQueue := s.messagesQueue ++ [msg]
                   lastLogTime := now + wait }
      else { s with messagesQueue := s.messagesQueue ++ [msg] }) ∧
    (logMessage false interval wait now msg s).messagesQueue = s.messagesQueue ++ [msg] := by
  constructor
  · by_cases hf : (now : ℤ) - (s.lastLogTime : ℤ) > (interval : ℤ)
    · cases live
      · simp [logMessage, hf]
      · simp [logMessage, hf]
    · simp [logMessage, hf]
  · by_cases hf : (now : ℤ) - (s.lastLogTime : ℤ) > (interval : ℤ)
    · simp [logMessage, hf]
    · simp [logMessage, hf]

/-- C5: on a successful session load, train runs exactly numEpochs
epochs, each one training pass followed by one evaluation pass (the
returned trace is that interleaving in order), and finishes with a final
summary status carrying the accuracy percentage of the LAST evaluation
pass, the total wall time in seconds, and the average iterations/second
over the epochs, with isTraining reset to false. -/
theorem train_runs_epochs_and_summary {σ : Type} (sess : σ) (numEpochs : ℕ)
    (hn : 0 < numEpochs) (epochIts epochAcc : ℕ → ℚ) (tMs : ℚ) (s0 : AppState) :
    ∃ s', train (Except.ok sess) numEpochs epochIts epochAcc tMs s0 =
        Except.ok (s', (List.range numEpochs).flatMap
          (fun e => [(Phase.training, e), (Phase.evaluating, e)])) ∧
      s'.statusMessage = summaryText (100 * epochAcc (numEpochs - 1)) (tMs / 1000)
        ((((List.range numEpochs).map epochIts).sum) / numEpochs) ∧
      s'.isTraining = false := by
  refine ⟨{ statusMessage := summaryText (100 * epochAcc (numEpochs - 1)) (tMs / 1000)
              ((((List.range numEpochs).map epochIts).sum) / numEpochs)
            errorMessage := "", isTraining := false, trainingLosses := []
            testAccuracies := [], messages := [] }, ?_, rfl, rfl⟩
  rw [train_ok_eq, epochLoop_trace, epochLoop_cum, epochLoop_acc _ _ _ hn]

/-- C5 witness: a concrete two-epoch run with constant training speed 1
and evaluation accuracy equal to the epoch index. -/
theorem train_runs_epochs_and_summary_witness :
    ∃ s', train (Except.ok ()) 2 (fun _ => (1 : ℚ)) (fun e => (e : ℚ)) 3000 default =
        Except.ok (s', (List.range 2).flatMap
          (fun e => [(Phase.training, e), (Phase.evaluating, e)])) ∧
      s'.statusMessage = summaryText (100 * ((2 - 1 : ℕ) : ℚ)) (3000 / 1000)
        ((((List.range 2).map (fun _ => (1 : ℚ))).sum) / ((2 : ℕ) : ℚ)) ∧
      s'.isTraining = false :=
  train_runs_epochs_and_summary () 2 (by decide) (fun _ => (1 : ℚ)) (fun e => (e : ℚ)) 3000 default

/-- C6: the batch stream is restartable and side-effect free — running
the generator and then running it again from the state the first run
returned yields the same batch list; the data array, label array and
object state come back unchanged; the sequence has floor(n/batchSize)
batches and its i-th batch is built from offset i * batchSize of the
original arrays, so every call starts from offset 0. -/
theorem batchesRun_restartable (s : ImageDataState) (data labels : List Tensor) :
    (batchesRun s data labels).1 =
      (batchesRun (batchesRun s data labels).2.2.2 data labels).1 ∧
    (batchesRun s data labels).2.1 = data ∧
    (batchesRun s data labels).2.2.1 = labels ∧
    (batchesRun s data labels).2.2.2 = s ∧
    (batchesRun s data labels).1.length = data.length / s.batchSize ∧
    (∀ i, i < data.length / s.batchSize →
      (batchesRun s data labels).1.getD i default =
        { data := ((data.drop (i * s.batchSize)).take s.batchSize).headI
          labels := ((labels.drop (i * s.batchSize)).take s.batchSize).headI }) := by
  refine ⟨rfl, rfl, rfl, rfl, batches_length _ _ _, ?_⟩
  intro i hi
  exact batches_getD s.batchSize data labels i hi

/-- C7: indexOfMax returns the first index achieving the maximum — the
returned index is in range, its entry dominates every entry, and every
entry strictly to its left is strictly smaller (the scan replaces the
index only on strict greater-than); and on the spec's concrete scores
[0.2, 0.5, 0.5, 0.1] the chosen index is 1, not 2. -/
theorem indexOfMax_first_max :
    (∀ arr : List ℚ, arr ≠ [] →
      ∃ i, indexOfMax arr = Except.ok i ∧ i < arr.length ∧
        (∀ j, j < arr.length → arr.getD j 0 ≤ arr.getD i 0) ∧
        (∀ j, j < i → arr.getD j 0 < arr.getD i 0)) ∧
    indexOfMax [mkRat 2 10, mkRat 5 10, mkRat 5 10, mkRat 1 10] = Except.ok 1 := by
  constructor
  · intro arr h
    obtain ⟨h1, h2, h3⟩ := indexOfMaxCore_spec arr h
    refine ⟨indexOfMaxCore arr, ?_, h1, h2, h3⟩
    unfold indexOfMax
    rw [if_neg (fun hc => h (List.length_eq_zero.mp hc))]
  · decide

/-- C8: an evaluation pass over zero batches returns normally (JS
division does not throw) and reports accuracy NaN: with samplesSeen = 0
the final numCorrect / testPicsSoFar is the JS value 0/0 = NaN. -/
theorem runTestingEpoch_empty_nan (engine : Batch → EvalStepResult) :
    runTestingEpoch engine [] =
      Except.ok ({ batchNum := 0, numCorrect := 0, testPicsSoFar := 0, accumulatedLoss := 0 },
        JSNum.nan) := rfl

/-- C9: on every non-empty array indexOfMax returns an in-range index
whose entry dominates every entry of the array; on the empty array it
throws (returns the error) instead of returning an index. -/
theorem indexOfMax_sound_or_throws :
    (∀ arr : List ℚ, arr ≠ [] →
      ∃ i, indexOfMax arr = Except.ok i ∧ i < arr.length ∧
        ∀ j, j < arr.length → arr.getD j 0 ≤ arr.getD i 0) ∧
    indexOfMax ([] : List ℚ) = Except.error indexOfMaxErrMsg := by
  constructor
  · intro arr h
    obtain ⟨h1, h2, _⟩ := indexOfMaxCore_spec arr h
    refine ⟨indexOfMaxCore arr, ?_, h1, h2⟩
    unfold indexOfMax
    rw [if_neg (fun hc => h (List.length_eq_zero.mp hc))]
  · rfl

/-- C10: when session creation fails during a start request, train
propagates the original error uncaught; the resulting state has the
human-readable error description set, isTraining still true (the reset
at the end of train never runs), the status still the pre-load message
(so no final summary is published), and the start button disabled, so no
further start request can be initiated. -/
theorem train_session_failure {σ : Type} (err : String) (numEpochs : ℕ)
    (epochIts epochAcc : ℕ → ℚ) (tMs : ℚ) (s0 : AppState) :
    ∃ s', train (σ := σ) (Except.error err) numEpochs epochIts epochAcc tMs s0 =
        Except.error (err, s') ∧
      s'.errorMessage = "Error loading the training session: " ++ err ∧
      s'.isTraining = true ∧
      s'.statusMessage = "Attempting to load training session..." ∧
      startButtonDisabled s' = true := by
  refine ⟨{ statusMessage := "Attempting to load training session..."
            errorMessage := "Error loading the training session: " ++ err
            isTraining := true, trainingLosses := [], testAccuracies := []
            messages := [] }, rfl, rfl, rfl, rfl, rfl⟩

/-! ## Witnesses at concrete inputs -/

/-- C3 witness: three manifest entries and two well-formed label lines
under cap 2 give two samples and two labels, and sample 0 is the
processed fetch of the first manifest entry. -/
theorem load_lengths_aligned_witness :
    (loadData (fun _ => [7]) "r" "train" ["a", "b", "c"] 2).length = 2 ∧
    (readLabelsFile [some 1, none, some 2] 2).length = 2 ∧
    (loadData (fun _ => [7]) "r" "train" ["a", "b", "c"] 2).getD 0 default =
      processImage [7] := by
  have h := load_lengths_aligned (fun _ => [7]) "r" "train" ["a", "b", "c"]
    [some 1, none, some 2] 2
  refine ⟨?_, ?_, ?_⟩
  · rw [h.1]; decide
  · rw [h.2.1]; decide
  · have h0 := h.2.2.2.2.2.1 0 (by decide)
    simpa using h0

/-- C4 witness: with live logging off, a flushing post leaves the earlier
buffered message and the new one in the queue. -/
theorem logMessage_behavior_witness :
    (logMessage false 1000 500 2000 "w"
      { messagesQueue := ["q"], lastLogTime := 0, statusMessage := ""
        messages := [] }).messagesQueue = ["q", "w"] := by
  have h := logMessage_behavior false 1000 500 2000 "w"
    { messagesQueue := ["q"], lastLogTime := 0, statusMessage := "", messages := [] }
  simpa using h.2

/-- Object state for the C6 witness. -/
def sW : ImageDataState :=
  { batchSize := 2, maxNumTrainSamples := 293, maxNumTestSamples := 73
    dataFolderPath := "data" }

/-- Four sample tensors for the C6 witness. -/
def dataW : List Tensor := [sampleTensor 0, sampleTensor 1, sampleTensor 2, sampleTensor 3]

/-- Four label tensors for the C6 witness. -/
def labelsW : List Tensor := [labelTensor 0, labelTensor 1, labelTensor 2, labelTensor 3]

/-- C6 witness: four samples with batch size two — rerunning yields the
same two batches, the state is unchanged, and batch 1 is built from
offset 2 of the original arrays. -/
theorem batchesRun_restartable_witness :
    (batchesRun sW dataW labelsW).1 =
      (batchesRun (batchesRun sW dataW labelsW).2.2.2 dataW labelsW).1 ∧
    (batchesRun sW dataW labelsW).2.2.2 = sW ∧
    (batchesRun sW dataW labelsW).1.length = 2 ∧
    (batchesRun sW dataW labelsW).1.getD 1 default =
      { data := ((dataW.drop (1 * sW.batchSize)).take sW.batchSize).headI
        labels := ((labelsW.drop (1 * sW.batchSize)).take sW.batchSize).headI } := by
  have h := batchesRun_restartable sW dataW labelsW
  exact ⟨h.1, h.2.2.2.1, h.2.2.2.2.1, h.2.2.2.2.2 1 (by decide)⟩

/-- C7 witness: on the non-empty scores [3, 7, 7, 2] the returned index
is in range, maximal and first-maximal. -/
theorem indexOfMax_first_max_witness :
    ∃ i, indexOfMax [(3 : ℚ), 7, 7, 2] = Except.ok i ∧
      i < ([(3 : ℚ), 7, 7, 2] : List ℚ).length ∧
      (∀ j, j < ([(3 : ℚ), 7, 7, 2] : List ℚ).length →
        ([(3 : ℚ), 7, 7, 2] : List ℚ).getD j 0 ≤ ([(3 : ℚ), 7, 7, 2] : List ℚ).getD i 0) ∧
      (∀ j, j < i →
        ([(3 : ℚ), 7, 7, 2] : List ℚ).getD j 0 < ([(3 : ℚ), 7, 7, 2] : List ℚ).getD i 0) :=
  indexOfMax_first_max.1 [(3 : ℚ), 7, 7, 2] (by simp)

/-- C8 witness: a concrete engine over zero batches still returns ok with
accuracy NaN. -/
theorem runTestingEpoch_empty_nan_witness :
    runTestingEpoch (fun _ => { loss := 0, output := default }) [] =
      Except.ok ({ batchNum := 0, numCorrect := 0, testPicsSoFar := 0, accumulatedLoss := 0 },
        JSNum.nan) :=
  runTestingEpoch_empty_nan (fun _ => { loss := 0, output := default })

/-- C9 witness: on the non-empty scores [1, 2] the returned index is in
range and maximal. -/
theorem indexOfMax_sound_or_throws_witness :
    ∃ i, indexOfMax [(1 : ℚ), 2] = Except.ok i ∧ i < ([(1 : ℚ), 2] : List ℚ).length ∧
      ∀ j, j < ([(1 : ℚ), 2] : List ℚ).length →
        ([(1 : ℚ), 2] : List ℚ).getD j 0 ≤ ([(1 : ℚ), 2] : List ℚ).getD i 0 :=
  indexOfMax_sound_or_throws.1 [(1 : ℚ), 2] (by simp)

/-- C10 witness: a concrete failed create call propagates the error with
the error message set, isTraining stuck true and the start button
disabled. -/
theorem train_session_failure_witness :
    ∃ s', train (σ := Unit) (Except.error "boom") 5 (fun _ => 0) (fun _ => 0) 0 default =
        Except.error ("boom", s') ∧
      s'.errorMessage = "Error loading the training session: " ++ "boom" ∧
      s'.isTraining = true ∧
      s'.statusMessage = "Attempting to load training session..." ∧
      startButtonDisabled s' = true :=
  train_session_failure "boom" 5 (fun _ => 0) (fun _ => 0) 0 default

end ORTWeb
